import Mathlib

/-!
Shallow embedding of the Browser Perception & Action Engine of
PagePilot-Agentic.Web.Browser:
  - src/chrome-extension/src/background/dom/views.ts
    (DOMElementNode, selector synthesis, hash cache)
  - src/chrome-extension/src/background/browser/page.ts
    (state refresh, element location, click ladder, scrolling,
     network-idle monitor)
TypeScript strings are Lean Strings, attribute maps are ordered
association lists (mirroring Object.entries order), JS truthiness of
strings/numbers is made explicit, and asynchronous collaborator calls are
abstracted as environment records recording each call's outcome.
-/

namespace PagePilot

/-! ### JS string helpers -/

/-- JS truthiness of a possibly-missing string (`undefined`, `null` and
`""` are falsy). -/
def jsTruthyStr : Option String → Bool
  | some s => s ≠ ""
  | none => false

/-- The JS idiom `a || dflt` on a possibly-missing string. -/
def jsOrStr (a : Option String) (dflt : String) : String :=
  match a with
  | some s => if s = "" then dflt else s
  | none => dflt

/-- The JS idiom `a || b` on possibly-missing strings (empty string is falsy). -/
def jsOrOpt (a b : Option String) : Option String :=
  if jsTruthyStr a then a else b

/-- Does `hay` start with `needle` (on character lists)? -/
def startsWithChars : List Char → List Char → Bool
  | _, [] => true
  | [], _ :: _ => false
  | a :: as, b :: bs => a == b && startsWithChars as bs

/-- Does the character list contain `needle` as a contiguous run?
Models JS `String.prototype.includes`. -/
def charsHaveSub (needle : List Char) : List Char → Bool
  | [] => needle.isEmpty
  | c :: rest => startsWithChars (c :: rest) needle || charsHaveSub needle rest

/-- The JS call `hay.includes(needle)`. -/
def strHasSub (hay needle : String) : Bool :=
  charsHaveSub needle.toList hay.toList

/-- First character of the JS identifier pattern `[a-zA-Z_]`. -/
def isIdentStart (c : Char) : Bool :=
  ('a' ≤ c && c ≤ 'z') || ('A' ≤ c && c ≤ 'Z') || c = '_'

/-- Later characters of the JS identifier pattern `[a-zA-Z0-9_-]`. -/
def isIdentChar (c : Char) : Bool :=
  isIdentStart c || ('0' ≤ c && c ≤ '9') || c = '-'

/-- The regex `/^[a-zA-Z_][a-zA-Z0-9_-]*$/` used for ids and class names
in views.ts. -/
def matchesIdentifierPattern (s : String) : Bool :=
  match s.toList with
  | [] => false
  | c :: cs => isIdentStart c && cs.all isIdentChar

/-- The test `/\d{3,}/.test s`: the string contains three or more consecutive
decimal digits. -/
def hasDigitRun3 : List Char → Bool
  | a :: b :: c :: rest =>
      (a.isDigit && b.isDigit && c.isDigit) || hasDigitRun3 (b :: c :: rest)
  | _ => false

/-- The regex class in views.ts line 362 testing attribute values for
quote/angle-bracket/control characters. -/
def containsBadValueChar (s : String) : Bool :=
  s.toList.any fun c =>
    c = '"' || c = Char.ofNat 39 || c = '<' || c = '>' || c = Char.ofNat 96 ||
    c = Char.ofNat 10 || c = Char.ofNat 13 || c = Char.ofNat 9

/-- The call `value.replace(/\s+/g, ' ')`: collapse whitespace runs to a single
space. -/
def collapseWs (s : String) : String :=
  let rec go : List Char → Bool → List Char
    | [], _ => []
    | c :: rest, prevWs =>
        if c.isWhitespace then
          if prevWs then go rest true else ' ' :: go rest true
        else c :: go rest false
  String.mk (go s.toList false)

/-- The call `value.replace(/"/g, backslash-quote)`:
escape every double quote with a backslash. -/
def escapeQuotes (s : String) : String :=
  String.mk (s.toList.flatMap fun c =>
    if c = '"' then [Char.ofNat 92, '"'] else [c])

/-- The call replacing the first colon of the attribute name: JS string-pattern `replace`
replaces only the first occurrence of a colon, prefixing it with a
backslash. -/
def replaceFirstColon (s : String) : String :=
  let rec go : List Char → List Char
    | [] => []
    | c :: rest => if c = ':' then Char.ofNat 92 :: ':' :: rest else c :: go rest
  String.mk (go s.toList)

/-- Character-based trim (kernel-computable stand-in for JS
`String.prototype.trim`). -/
def trimChars (s : String) : String :=
  String.mk (((s.toList.dropWhile Char.isWhitespace).reverse.dropWhile
    Char.isWhitespace).reverse)

/-- Character-based ASCII lowercasing (kernel-computable stand-in for JS
`String.prototype.toLowerCase` on the ASCII URLs and content types the
monitor inspects). -/
def toLowerChars (s : String) : String :=
  String.mk (s.toList.map Char.toLower)

/-! ### DOM element model (views.ts `DOMElementNode`, the fragment the
claims need: tag, xpath, attributes, highlight index, cached geometry).
Attributes are kept as an ordered association list, mirroring the
insertion order that `Object.entries` iterates. -/

structure CoordCenter where
  x : Int
  y : Int
deriving DecidableEq, Repr

structure CoordinateSet where
  center : CoordCenter
deriving DecidableEq, Repr

structure ViewportInfo where
  scrollX : Int
  scrollY : Int
deriving DecidableEq, Repr

structure DOMElementNode where
  tagName : Option String
  xpath : Option String
  attributes : List (String × String)
  highlightIndex : Option Nat
  viewportCoordinates : Option CoordinateSet := none
  pageCoordinates : Option CoordinateSet := none
  viewportInfo : Option ViewportInfo := none
deriving DecidableEq, Repr

/-- Lookup `this.attributes[k]`: first binding of `k` in the attribute map. -/
def getAttr (el : DOMElementNode) (k : String) : Option String :=
  (el.attributes.find? fun p => p.1 = k).map (·.2)

/-- The value `this.tagName || asterisk` as computed at the top of
`enhancedCssSelectorForElement`. -/
def elTag (el : DOMElementNode) : String :=
  jsOrStr el.tagName "*"

/-! ### convertSimpleXPathToCssSelector (views.ts lines 231-290) -/

/-- The slice `part.substring(0, part.indexOf(lbracket))`. -/
def beforeFirstBracket (s : String) : String :=
  String.mk (s.toList.takeWhile fun c => c ≠ '[')

/-- The slice `part.substring(part.indexOf(lbracket))`. -/
def fromFirstBracket (s : String) : String :=
  String.mk (s.toList.dropWhile fun c => c ≠ '[')

/-- The call `idx.replace(lbracket, empty)`: drop the first opening bracket. -/
def dropFirstOpenBracket (s : String) : String :=
  let rec go : List Char → List Char
    | [] => []
    | c :: rest => if c = '[' then rest else c :: go rest
  String.mk (go s.toList)

/-- The pipeline `indexPart.split(rbracket).slice(0, -1)` with each entry stripped of its first opening bracket. -/
def bracketIndices (indexPart : String) : List String :=
  ((indexPart.splitOn "]").dropLast).map dropFirstOpenBracket

/-- The test `/^\d+$/.test idx`. -/
def isAllDigits (s : String) : Bool :=
  s ≠ "" && s.toList.all Char.isDigit

/-- One `[...]` index appended to the base part: numeric indices become
`:nth-of-type(n)`, `last()` becomes `:last-of-type`, `position()>1`
becomes `:nth-of-type(n+2)`. -/
def applyXPathIndex (basePart : String) (idx : String) : String :=
  if isAllDigits idx then
    -- parseInt(idx, 10) - 1, then printed as index + 1: the original value
    basePart ++ ":nth-of-type(" ++ toString ((idx.toNat?).getD 0) ++ ")"
  else if idx = "last()" then
    basePart ++ ":last-of-type"
  else if strHasSub idx "position()" then
    if strHasSub idx ">1" then basePart ++ ":nth-of-type(n+2)" else basePart
  else basePart

/-- One path segment of the xpath, translated to a CSS part. -/
def xpathPartToCss (part : String) : String :=
  if strHasSub part "[" then
    (bracketIndices (fromFirstBracket part)).foldl applyXPathIndex
      (beforeFirstBracket part)
  else part

/-- The call `xpath.replace(/^\//, empty)`: remove a single leading slash. -/
def removeLeadingSlash (s : String) : String :=
  match s.toList with
  | '/' :: rest => String.mk rest
  | _ => s

/-- views.ts `convertSimpleXPathToCssSelector`. -/
def convertSimpleXPathToCssSelector (xpath : String) : String :=
  if xpath = "" then ""
  else
    let parts := (removeLeadingSlash xpath).splitOn "/"
    let cssParts := (parts.filter fun p => p ≠ "").map xpathPartToCss
    String.intercalate " > " cssParts

/-! ### enhancedCssSelectorForElement (views.ts lines 292-382) -/

/-- Is this class name accepted by the class-scan loop
(views.ts lines 339-347)?  Skipped when whitespace-only, when it
contains a run of 3+ digits or is longer than 20 characters, and
appended only when it matches the identifier pattern. -/
def isStableClass (c : String) : Bool :=
  trimChars c ≠ "" && !(hasDigitRun3 c.toList || c.length > 20) &&
    matchesIdentifierPattern c

/-- The class-scan loop of views.ts lines 337-347, threading the
running selector and the `classCount` counter.  JS splits the class
attribute with `/\s+/`; splitting on each whitespace character instead
only introduces extra empty tokens, all skipped by the trim test. -/
def classScanGo : List String → Nat → String → String
  | [], _, acc => acc
  | c :: rest, count, acc =>
      if trimChars c = "" then classScanGo rest count acc
      else if hasDigitRun3 c.toList || c.length > 20 then classScanGo rest count acc
      else if matchesIdentifierPattern c && count < 2 then
        classScanGo rest (count + 1) (acc ++ "." ++ c)
      else classScanGo rest count acc

/-- Character-by-character whitespace split (kernel-computable stand-in
for `String.split Char.isWhitespace`; same tokens, and the extra empty
tokens JS `/\s+/` would merge are skipped by the trim test). -/
def splitOnWs (s : String) : List String :=
  go s.toList []
where
  go : List Char → List Char → List String
    | [], cur => [String.mk cur.reverse]
    | c :: rest, cur =>
        if c.isWhitespace then String.mk cur.reverse :: go rest []
        else go rest (c :: cur)

/-- The class names appended to the selector for a given `class`
attribute value. -/
def classSelectorPart (classAttr : String) : String :=
  classScanGo (splitOnWs classAttr) 0 ""

/-- The set `KEY_ATTRIBUTES` (views.ts line 351). -/
def KEY_ATTRIBUTES : List String :=
  ["aria-label", "role", "type", "placeholder", "title", "alt"]

/-- The key-attribute loop of views.ts lines 353-369, iterating the
attribute entries in order. -/
def keyAttributesPart (attrs : List (String × String)) : String :=
  attrs.foldl
    (fun acc p =>
      let attrKey := p.1
      let value := p.2
      if attrKey = "class" || attrKey = "id" then acc
      else if trimChars attrKey = "" || !(KEY_ATTRIBUTES.contains attrKey) then acc
      else if value = "" then acc
      else
        let safeAttribute := replaceFirstColon attrKey
        if containsBadValueChar value then
          acc ++ "[" ++ safeAttribute ++ "*=\"" ++
            escapeQuotes (trimChars (collapseWs value)) ++ "\"]"
        else
          acc ++ "[" ++ safeAttribute ++ "=\"" ++ value ++ "\"]")
    ""

/-- The sentinel selector emitted by the catch-all branch of
`enhancedCssSelectorForElement` (views.ts line 380); documented as
non-queryable. -/
def highlightIndexSentinel (el : DOMElementNode) : String :=
  elTag el ++ "[highlight-index='" ++
    (match el.highlightIndex with
     | some n => toString n
     | none => "undefined") ++ "']"

/-- views.ts `enhancedCssSelectorForElement` (the pure body; the
TypeScript try/catch wrapper is unreachable for this total function). -/
def enhancedCssSelectorForElement (el : DOMElementNode)
    (includeDynamicAttributes : Bool := true) : String :=
  if !jsTruthyStr el.xpath then ""
  else
    let tagName := elTag el
    -- Rule 1: tag + id when the id matches identifier syntax
    let id := getAttr el "id"
    if jsTruthyStr id && matchesIdentifierPattern ((id).getD "") then
      tagName ++ "#" ++ (id).getD ""
    else
      -- Rule 2: test attributes, only with dynamic attributes enabled
      let testId := jsOrOpt (jsOrOpt (getAttr el "data-testid") (getAttr el "data-qa"))
        (getAttr el "data-cy")
      if jsTruthyStr testId && includeDynamicAttributes then
        let attr :=
          if jsTruthyStr (getAttr el "data-testid") then "data-testid"
          else if jsTruthyStr (getAttr el "data-qa") then "data-qa"
          else "data-cy"
        tagName ++ "[" ++ attr ++ "=\"" ++ (testId).getD "" ++ "\"]"
      else
        -- Rule 3: name attribute on form-control tags
        let name := getAttr el "name"
        if jsTruthyStr name &&
            ["input", "textarea", "select", "button"].contains tagName then
          tagName ++ "[name=\"" ++ (name).getD "" ++ "\"]"
        else
          -- Rule 4: tag + stable classes + key attributes
          let withClasses :=
            if jsTruthyStr (getAttr el "class") && includeDynamicAttributes then
              tagName ++ classSelectorPart ((getAttr el "class").getD "")
            else tagName
          let cssSelector := withClasses ++ keyAttributesPart el.attributes
          -- Rule 5: fall back to the XPath-derived positional selector
          if cssSelector = tagName then
            convertSimpleXPathToCssSelector ((el.xpath).getD "")
          else cssSelector

/-! ### Element hash cache (views.ts lines 83-139)

`hash()` keeps two private fields: `_hashedValue` (the memoized result)
and `_hashPromise` (the in-flight computation).  For sequential callers
the promise field is observable only as "a computation is running", so
the sequential model keeps the memoized value plus a counter of how many
times `HistoryTreeProcessor.hashDomElement` has been invoked. -/

structure HashedDomElement where
  branchPathHash : String
  attributesHash : String
  xpathHash : String
deriving DecidableEq, Repr

structure HashCacheState where
  hashedValue : Option HashedDomElement
  computeCount : Nat
deriving DecidableEq, Repr

/-- One sequential `hash()` call.  `compute` is the outcome
`HistoryTreeProcessor.hashDomElement` would produce if invoked.  A cache
hit returns immediately; otherwise the computation runs (counted), on
success the value is memoized, on failure the promise is cleared (cache
stays unset) and an enriched error naming the tag is thrown. -/
def hashCall (tag : String) (compute : Except String HashedDomElement)
    (st : HashCacheState) : Except String HashedDomElement × HashCacheState :=
  match st.hashedValue with
  | some v => (.ok v, st)
  | none =>
      match compute with
      | .ok v => (.ok v, ⟨some v, st.computeCount + 1⟩)
      | .error e =>
          (.error ("Failed to hash DOM element (" ++ tag ++ "): " ++ e),
           ⟨none, st.computeCount + 1⟩)

/-- views.ts `clearHashCache`. -/
def clearHashCache (st : HashCacheState) : HashCacheState :=
  ⟨none, st.computeCount⟩

/-- A sequence of `hash()` calls, each with the outcome its computation
would produce; returns the list of results and the final state. -/
def hashCalls (tag : String) : List (Except String HashedDomElement) →
    HashCacheState → List (Except String HashedDomElement) × HashCacheState
  | [], st => ([], st)
  | c :: cs, st =>
      let (r, st1) := hashCall tag c st
      let (rs, st2) := hashCalls tag cs st1
      (r :: rs, st2)

/-! Concurrent view of the same cache (claim C9): the pair
(`_hashedValue`, `_hashPromise`) is one slot
Unset | InFlight(shared promise) | Done(value).  A call on Unset starts
the computation (the only place `hashDomElement` is invoked) and attaches
to it; a call on InFlight attaches to the existing promise; a call on
Done returns the cached value.  Resolution fulfils every attached
caller with the one computed value. -/

inductive HashSlot
  | unset
  | inflight (waiters : Nat)
  | done (v : HashedDomElement)
deriving DecidableEq, Repr

/-- One concurrent `hash()` call arriving before any resolution: returns
the new slot and whether this call invoked the underlying computation. -/
def hashCallConcurrent : HashSlot → HashSlot × Bool
  | .unset => (.inflight 1, true)
  | .inflight w => (.inflight (w + 1), false)
  | .done v => (.done v, false)

/-- Resolution of the shared computation with value `v`: every attached
waiter receives `v`.  Returns the new slot and how many callers were
fulfilled. -/
def hashResolve (v : HashedDomElement) : HashSlot → HashSlot × Nat
  | .inflight w => (.done v, w)
  | s => (s, 0)

/-- Running `k` concurrent calls arriving on a slot, counting how many of them
invoked the underlying computation. -/
def hashCallsConcurrent : Nat → HashSlot → HashSlot × Nat
  | 0, s => (s, 0)
  | k + 1, s =>
      let (s1, started) := hashCallConcurrent s
      let (s2, n) := hashCallsConcurrent k s1
      (s2, (if started then 1 else 0) + n)

/-! ### scrollDown / scrollUp (page.ts lines 415-433)

Each builds a `window.scrollBy(0, dy)` script by string interpolation;
the page effect is the signed vertical delta.  `if (amount)` is JS
number truthiness, so a provided amount of 0 takes the
`window.innerHeight` branch.  scrollUp interpolates an extra minus sign
in front of the amount, so a negative provided amount produces
`window.scrollBy(0, --N)` — an early JavaScript SyntaxError: `evaluate`
rejects and `scrollUp` throws instead of scrolling. -/

inductive ScrollOutcome
  | noPage
  | scrolled (dy : Int)
  | scriptError
deriving DecidableEq, Repr

/-- Effect of `scrollDown(amount?)`: nothing without a connected
puppeteer page; otherwise scroll by the amount (any sign interpolates
to a valid literal) or by `window.innerHeight` when the amount is
omitted or 0. -/
def scrollDownDelta (connected : Bool) (amount : Option Int)
    (innerHeight : Int) : ScrollOutcome :=
  if connected then
    match amount with
    | some a => if a ≠ 0 then .scrolled a else .scrolled innerHeight
    | none => .scrolled innerHeight
  else .noPage

/-- Effect of `scrollUp(amount?)`: as scrollDown but the script is
`window.scrollBy(0, -${amount})`, so a negative truthy amount yields a
`--N` SyntaxError and the call throws. -/
def scrollUpDelta (connected : Bool) (amount : Option Int)
    (innerHeight : Int) : ScrollOutcome :=
  if connected then
    match amount with
    | some a =>
        if a ≠ 0 then
          if a < 0 then .scriptError else .scrolled (-a)
        else .scrolled (-innerHeight)
    | none => .scrolled (-innerHeight)
  else .noPage

/-! ### Network-idle monitor (page.ts `_waitForStableNetwork`,
lines 1211-1377): the `onRequest` / `onResponse` handlers acting on the
pending set and the last-activity timestamp. -/

def RELEVANT_RESOURCE_TYPES : List String :=
  ["document", "stylesheet", "image", "font", "script", "iframe"]

def RELEVANT_CONTENT_TYPES : List String :=
  ["text/html", "text/css", "application/javascript", "image/", "font/",
   "application/json"]

def IGNORED_URL_PATTERNS : List String :=
  ["analytics", "tracking", "telemetry", "beacon", "metrics",
   "doubleclick", "adsystem", "adserver", "advertising",
   "facebook.com/plugins", "platform.twitter", "linkedin.com/embed",
   "livechat", "zendesk", "intercom", "crisp.chat", "hotjar",
   "push-notifications", "onesignal", "pushwoosh",
   "heartbeat", "ping", "alive",
   "webrtc", "rtmp://", "wss://",
   "cloudfront.net", "fastly.net"]

/-- The excluded streaming/real-time resource types of the second
`onRequest` filter. -/
def STREAMING_RESOURCE_TYPES : List String :=
  ["websocket", "media", "eventsource", "manifest", "other"]

/-- Content-type fragments the response handler treats as streaming. -/
def STREAMING_CONTENT_TYPES : List String :=
  ["streaming", "video", "audio", "webm", "mp4", "event-stream",
   "websocket", "protobuf"]

/-- An HTTP request as the monitor observes it.  `id` stands for the
request object's identity used by the JS `Set`. -/
structure NetRequest where
  id : Nat
  resourceType : String
  url : String
  headerPurpose : Option String := none
  headerSecFetchDest : Option String := none
deriving DecidableEq, Repr

/-- An HTTP response paired with its request identity.  The
content-length header is kept as the parsed numeric value when present
and numeric. -/
structure NetResponse where
  requestId : Nat
  contentType : Option String := none
  contentLength : Option Nat := none
deriving DecidableEq, Repr

/-- Monitor state: pending request identities (JS `Set` in insertion
order) and the `lastActivity` timestamp in milliseconds. -/
structure MonitorState where
  pending : List Nat
  lastActivity : Nat
deriving DecidableEq, Repr

/-- Models JS `Set.add`. -/
def setAdd (xs : List Nat) (x : Nat) : List Nat :=
  if xs.contains x then xs else xs ++ [x]

/-- Models JS `Set.delete`. -/
def setDelete (xs : List Nat) (x : Nat) : List Nat :=
  xs.filter fun y => y ≠ x

/-- The `onRequest` handler (page.ts lines 1269-1305). -/
def onRequest (req : NetRequest) (now : Nat) (st : MonitorState) : MonitorState :=
  if !(RELEVANT_RESOURCE_TYPES.contains req.resourceType) then st
  else if STREAMING_RESOURCE_TYPES.contains req.resourceType then st
  else if IGNORED_URL_PATTERNS.any (fun p => strHasSub (toLowerChars req.url) p) then st
  else if (toLowerChars req.url).startsWith "data:" ||
      (toLowerChars req.url).startsWith "blob:" then st
  else if req.headerPurpose = some "prefetch" ||
      req.headerSecFetchDest = some "video" ||
      req.headerSecFetchDest = some "audio" then st
  else ⟨setAdd st.pending req.id, now⟩

/-- The `onResponse` handler (page.ts lines 1307-1342).  Streaming
content types, irrelevant content types and over-5MB bodies are removed
from pending without touching `lastActivity`; only a qualifying response
updates it. -/
def onResponse (resp : NetResponse) (now : Nat) (st : MonitorState) : MonitorState :=
  if !(st.pending.contains resp.requestId) then st
  else
    let contentType := (jsOrStr (resp.contentType.map toLowerChars) "")
    if STREAMING_CONTENT_TYPES.any (fun t => strHasSub contentType t) then
      ⟨setDelete st.pending resp.requestId, st.lastActivity⟩
    else if !(RELEVANT_CONTENT_TYPES.any fun ct => strHasSub contentType ct) then
      ⟨setDelete st.pending resp.requestId, st.lastActivity⟩
    else if (match resp.contentLength with
             | some n => decide (n > 5 * 1024 * 1024)
             | none => false) then
      ⟨setDelete st.pending resp.requestId, st.lastActivity⟩
    else ⟨setDelete st.pending resp.requestId, now⟩

/-! ### locateElement (page.ts lines 692-816)

The asynchronous frame/DOM queries are abstracted as an environment
recording, for each iframe ancestor, whether its synthesized selector
resolved and whether its content frame could be entered, and for the
final frame the handle (if any) each query strategy would return plus
whether the scroll-stabilization wait on that handle succeeds (its
timeout throw is caught by the strategy's catch and falls through to the
next strategy).  Handles are identified by `Nat`. -/

structure IframeStep where
  frameFound : Bool
  contentFrameOk : Bool
deriving DecidableEq, Repr

structure LocateEnv where
  iframeSteps : List IframeStep
  cssQuery : Option Nat
  cssScrollOk : Bool
  xpathQuery : Option Nat
  xpathScrollOk : Bool
  idQuery : Option Nat
  idScrollOk : Bool
  nameQuery : Option Nat
  nameScrollOk : Bool
  ariaQuery : Option Nat
  ariaScrollOk : Bool
deriving DecidableEq, Repr

inductive LocStrat
  | css
  | xpath
  | idSel
  | nameSel
  | ariaSel
deriving DecidableEq, Repr

/-- Result of `locateElement`: the returned handle (null = `none`) and
the strategies actually attempted, in order. -/
structure LocateResult where
  handle : Option Nat
  tried : List LocStrat
deriving DecidableEq, Repr

/-- One strategy body: the query yields a handle and the
scroll-stabilization wait succeeds, or the strategy fails (query null,
query threw, or scroll wait timed out — all caught). -/
def tryStrategy (q : Option Nat) (scrollOk : Bool) : Option Nat :=
  match q with
  | some h => if scrollOk then some h else none
  | none => none

/-- The iframe-ancestor walk (page.ts lines 707-722): each iframe parent
is resolved top-down; a missing frame element or inaccessible content
frame returns null immediately. -/
def resolveFrames : List IframeStep → Bool
  | [] => true
  | s :: rest =>
      if !s.frameFound then false
      else if !s.contentFrameOk then false
      else resolveFrames rest

/-- Strategies 2-5, entered with the trace accumulated so far.
Strategy 2 runs only when the element has a truthy xpath, 3 only with a
truthy id attribute, 4 with a truthy name and tag, 5 with a truthy
aria-label and tag. -/
def locateFromStrategy2 (env : LocateEnv) (el : DOMElementNode)
    (acc : List LocStrat) : LocateResult :=
  let step5 := fun (acc : List LocStrat) =>
    if jsTruthyStr (getAttr el "aria-label") && jsTruthyStr el.tagName then
      match tryStrategy env.ariaQuery env.ariaScrollOk with
      | some h => ⟨some h, acc ++ [.ariaSel]⟩
      | none => ⟨none, acc ++ [.ariaSel]⟩
    else ⟨none, acc⟩
  let step4 := fun (acc : List LocStrat) =>
    if jsTruthyStr (getAttr el "name") && jsTruthyStr el.tagName then
      match tryStrategy env.nameQuery env.nameScrollOk with
      | some h => ⟨some h, acc ++ [.nameSel]⟩
      | none => step5 (acc ++ [.nameSel])
    else step5 acc
  let step3 := fun (acc : List LocStrat) =>
    if jsTruthyStr (getAttr el "id") then
      match tryStrategy env.idQuery env.idScrollOk with
      | some h => ⟨some h, acc ++ [.idSel]⟩
      | none => step4 (acc ++ [.idSel])
    else step4 acc
  if jsTruthyStr el.xpath then
    match tryStrategy env.xpathQuery env.xpathScrollOk with
    | some h => ⟨some h, acc ++ [.xpath]⟩
    | none => step3 (acc ++ [.xpath])
  else step3 acc

/-- page.ts `locateElement`: resolve iframe ancestors (failing closed),
then try CSS selector, raw XPath, id, `tag[name=...]`,
`tag[aria-label=...]` in order, returning the first handle that exists
and survives the scroll-stabilization wait; exhaustion returns null. -/
def locateElement (env : LocateEnv) (el : DOMElementNode) : LocateResult :=
  if !resolveFrames env.iframeSteps then ⟨none, []⟩
  else
    match tryStrategy env.cssQuery env.cssScrollOk with
    | some h => ⟨some h, [.css]⟩
    | none => locateFromStrategy2 env el [.css]

/-! ### clickElementNode (page.ts lines 994-1158)

The ladder after the snapshot-refresh/re-resolve step.  The environment
records the locate outcome, whether the outer scroll-into-view wait
succeeds (its throw is NOT caught by any inner handler and aborts the
ladder), and each attempt's success. -/

structure ClickEnv where
  located : Option Nat
  scrollOk : Bool
  nativeClickOk : Bool
  scriptClickOk : Bool
  viewportClickOk : Bool
  pageClickOk : Bool
  hostScriptOk : Bool
deriving DecidableEq, Repr

inductive ClickAttempt
  | native
  | script
  | viewportCoord
  | pageCoord
  | hostScript
deriving DecidableEq, Repr

/-- Outcome of the click ladder: success records the attempts made (the
last one succeeded); failure carries the attempts plus the tag and
highlight index interpolated into the thrown error message. -/
inductive ClickOutcome
  | success (attempts : List ClickAttempt)
  | failure (attempts : List ClickAttempt) (tag : Option String)
      (idx : Option Nat)
deriving DecidableEq, Repr

/-- The viewport point used by the page-coordinate fallback: the stored
page center minus the scroll offsets captured in the element's
`viewportInfo` at snapshot time (`?? 0` when absent). -/
def pageCoordClickPoint (el : DOMElementNode) : Option (Int × Int) :=
  el.pageCoordinates.map fun c =>
    (c.center.x - (match el.viewportInfo with | some vi => vi.scrollX | none => 0),
     c.center.y - (match el.viewportInfo with | some vi => vi.scrollY | none => 0))

/-- The chrome.scripting final fallback and the exhaustion error
(page.ts lines 1083-1152). -/
def clickHostPhase (env : ClickEnv) (el : DOMElementNode)
    (acc : List ClickAttempt) : ClickOutcome :=
  if env.hostScriptOk then .success (acc ++ [.hostScript])
  else .failure (acc ++ [.hostScript]) el.tagName el.highlightIndex

/-- The coordinate attempts (page.ts lines 1048-1081): viewport-center
mouse click when cached viewport coordinates exist, then page-center
mouse click adjusted by stored scroll offsets when cached page
coordinates exist, then the host-scripting fallback. -/
def clickCoordPhase (env : ClickEnv) (el : DOMElementNode)
    (acc : List ClickAttempt) : ClickOutcome :=
  let pagePhase := fun (acc : List ClickAttempt) =>
    match el.pageCoordinates with
    | some _ =>
        if env.pageClickOk then .success (acc ++ [.pageCoord])
        else clickHostPhase env el (acc ++ [.pageCoord])
    | none => clickHostPhase env el acc
  match el.viewportCoordinates with
  | some _ =>
      if env.viewportClickOk then .success (acc ++ [.viewportCoord])
      else pagePhase (acc ++ [.viewportCoord])
  | none => pagePhase acc

/-- page.ts `clickElementNode`, from the locate step onward: with a
located handle, scroll-stabilize (a timeout here aborts the whole
click), then native click with a 2s timeout, then script-driven click,
then fall through to the coordinate attempts; with no handle the
coordinate attempts are entered directly. -/
def clickElementNode (env : ClickEnv) (el : DOMElementNode) : ClickOutcome :=
  match env.located with
  | some _ =>
      if !env.scrollOk then .failure [] el.tagName el.highlightIndex
      else if env.nativeClickOk then .success [.native]
      else if env.scriptClickOk then .success [.native, .script]
      else clickCoordPhase env el [.native, .script]
  | none => clickCoordPhase env el []

/-- Attempts recorded in a click outcome. -/
def ClickOutcome.attempts : ClickOutcome → List ClickAttempt
  | .success a => a
  | .failure a _ _ => a

/-! ### PageState and _updateState (page.ts lines 34-52 and 218-286) -/

structure DOMState where
  elementTree : DOMElementNode
  selectorMap : List (Nat × DOMElementNode)
deriving DecidableEq, Repr

structure PageState where
  elementTree : DOMElementNode
  selectorMap : List (Nat × DOMElementNode)
  tabId : Nat
  url : String
  title : String
  screenshot : Option String
  pixelsAbove : Int
  pixelsBelow : Int
deriving DecidableEq, Repr

/-- page.ts `build_initial_state`. -/
def build_initial_state (tabId : Option Nat) (url title : Option String) :
    PageState where
  elementTree :=
    { tagName := some "root", xpath := some "", attributes := [],
      highlightIndex := none }
  selectorMap := []
  tabId := tabId.getD 0
  url := jsOrStr url ""
  title := jsOrStr title ""
  screenshot := none
  pixelsAbove := 0
  pixelsBelow := 0

/-- Environment for one `_updateState` run: the outcome of each awaited
collaborator call, in program order. -/
structure UpdateEnv where
  /-- Whether `this._puppeteerPage.evaluate('1')` succeeds. -/
  pageAccessible : Bool
  /-- on an inaccessible page, `browser.pages()` still has a page to
  switch to. -/
  recoveryPageAvailable : Bool
  /-- Whether `removeHighlight()` does not throw. -/
  removeHighlightOk : Bool
  /-- Outcome of `getClickableElements`: threw (`error`), returned null (`ok none`)
  or returned a DOM state. -/
  clickableResult : Except Unit (Option DOMState)
  /-- Outcome of `takeScreenshot()` (consulted only with vision on). -/
  screenshotResult : Except Unit String
  /-- Outcome of `getScrollInfo()`. -/
  scrollInfoResult : Except Unit (Int × Int)
  /-- Value of `this._puppeteerPage?.url() || ''` (synchronous). -/
  urlNow : String
  /-- Outcome of `await this._puppeteerPage?.title()`. -/
  titleResult : Except Unit String
deriving Repr

/-- page.ts `_updateState`.  Returns the stored state after the call
(which is also the returned state on every non-fatal path); the only
fatal path is an inaccessible page with no remaining browser pages.
The field updates are sequential assignments: elementTree, selectorMap
and url are written before the awaited title fetch, so a title failure
is caught with those three fields already overwritten. -/
def updateState (env : UpdateEnv) (useVision : Bool) (s : PageState) :
    Except String PageState :=
  if !env.pageAccessible && !env.recoveryPageAvailable then
    .error "Browser closed: no valid pages available"
  else if !env.removeHighlightOk then .ok s
  else
    match env.clickableResult with
    | .error _ => .ok s
    | .ok none => .ok s
    | .ok (some content) =>
        match (if useVision then env.screenshotResult.map some
               else .ok none) with
        | .error _ => .ok s
        | .ok screenshot =>
            match env.scrollInfoResult with
            | .error _ => .ok s
            | .ok pix =>
                let s1 :=
                  { s with elementTree := content.elementTree,
                           selectorMap := content.selectorMap,
                           url := env.urlNow }
                match env.titleResult with
                | .error _ => .ok s1
                | .ok t =>
                    .ok { s1 with title := t, screenshot := screenshot,
                                  pixelsAbove := pix.1,
                                  pixelsBelow := pix.2 }

/-! ## Supporting lemmas -/

/-- A string matching the identifier pattern is nonempty. -/
theorem matchesIdentifierPattern_ne_empty {s : String}
    (h : matchesIdentifierPattern s = true) : s ≠ "" := by
  intro he
  subst he
  simp [matchesIdentifierPattern] at h

/-- The spec-side selection of "stable-looking" classes: filter by the
acceptance test, keep the first two. -/
def stableClassesSpec (cs : List String) : List String :=
  (cs.filter isStableClass).take 2

/-- Concatenation of a list of strings (used to state what the
class-scan loop appends). -/
def concatAll : List String → String
  | [] => ""
  | s :: rest => s ++ concatAll rest

/-- The class-scan loop equals filter-then-take, for any starting
counter and accumulator. -/
theorem classScanGo_eq_filter_take (cs : List String) :
    ∀ (count : Nat) (acc : String),
      classScanGo cs count acc =
        acc ++ concatAll
          ((((cs.filter isStableClass).take (2 - count)).map
            fun c => "." ++ c)) := by
  induction cs with
  | nil => intro count acc; simp [classScanGo, concatAll]
  | cons c rest ih =>
      intro count acc
      simp only [classScanGo]
      by_cases htrim : trimChars c = ""
      · rw [if_pos htrim, ih count acc]
        have hstable : isStableClass c = false := by
          simp [isStableClass, htrim]
        simp [List.filter_cons, hstable]
      · rw [if_neg htrim]
        by_cases hbad : (hasDigitRun3 c.toList || decide (c.length > 20)) = true
        · rw [if_pos hbad, ih count acc]
          have hstable : isStableClass c = false := by
            simp only [isStableClass]
            rw [hbad]
            simp
          simp [List.filter_cons, hstable]
        · have hbad' : (hasDigitRun3 c.toList || decide (c.length > 20)) = false := by
            cases h : (hasDigitRun3 c.toList || decide (c.length > 20)) with
            | false => rfl
            | true => exact absurd h hbad
          rw [if_neg hbad]
          by_cases hpat : matchesIdentifierPattern c = true
          · have hstable : isStableClass c = true := by
              simp only [isStableClass]
              rw [hbad']
              simp [htrim, hpat]
            by_cases hcount : count < 2
            · rw [if_pos (by simp [hpat, hcount]), ih (count + 1)]
              have h2 : 2 - count = (2 - (count + 1)) + 1 := by omega
              rw [h2]
              simp [List.filter_cons, hstable, concatAll, String.append_assoc]
            · rw [if_neg (by simp [hpat, hcount]), ih count acc]
              have h2 : 2 - count = 0 := by omega
              rw [h2]
              simp [List.filter_cons, hstable, h2, concatAll]
          · rw [if_neg (by simp [hpat]), ih count acc]
            have hstable : isStableClass c = false := by
              simp [isStableClass, hpat]
            simp [List.filter_cons, hstable]

/-! ## Claims -/

/-- C10: for every element whose xpath is null or the empty string,
`enhancedCssSelectorForElement` returns the empty string without
applying any synthesis rule — even when the element has an id matching
the identifier syntax or a test attribute — so such an element never
receives a usable synthesized selector and never the documented error
sentinel. -/
theorem c10_empty_xpath_empty_selector (el : DOMElementNode) (dyn : Bool)
    (h : el.xpath = none ∨ el.xpath = some "") :
    enhancedCssSelectorForElement el dyn = "" ∧
    enhancedCssSelectorForElement el dyn ≠ highlightIndexSentinel el := by
  have hx : jsTruthyStr el.xpath = false := by
    rcases h with h | h <;> simp [h, jsTruthyStr]
  have hres : enhancedCssSelectorForElement el dyn = "" := by
    simp [enhancedCssSelectorForElement, hx]
  refine ⟨hres, ?_⟩
  rw [hres]
  intro hcontra
  have hlen : (highlightIndexSentinel el).length = 0 := by
    rw [← hcontra]
    rfl
  have : 0 < (highlightIndexSentinel el).length := by
    unfold highlightIndexSentinel
    rw [String.length_append, String.length_append, String.length_append]
    have hb : "[highlight-index='".length = 18 := rfl
    omega
  omega

/-- C10 witness: an element with id `search-box` (which would match rule
1) but a null xpath synthesizes the empty selector, not the sentinel. -/
theorem c10_witness :
    enhancedCssSelectorForElement
      ⟨some "input", none, [("id", "search-box")], none, none, none, none⟩
      true = "" ∧
    enhancedCssSelectorForElement
      ⟨some "input", none, [("id", "search-box")], none, none, none, none⟩
      true ≠ highlightIndexSentinel
      ⟨some "input", none, [("id", "search-box")], none, none, none, none⟩ :=
  c10_empty_xpath_empty_selector _ true (Or.inl rfl)

/-- C4: for every element with a truthy xpath, selector synthesis applies
the first matching rule in order: an id matching
`[a-zA-Z_][a-zA-Z0-9_-]*` gives exactly `tag#id`; otherwise a present
test attribute (data-testid/data-qa/data-cy) with dynamic attributes
enabled gives `tag[attr="value"]`; otherwise a present name attribute on
an input/textarea/select/button tag gives exactly `tag[name="value"]`. -/
theorem c4_selector_rules (el : DOMElementNode) (dyn : Bool)
    (hx : jsTruthyStr el.xpath = true) :
    (∀ i, getAttr el "id" = some i → matchesIdentifierPattern i = true →
      enhancedCssSelectorForElement el dyn = elTag el ++ "#" ++ i) ∧
    (∀ t, ¬(jsTruthyStr (getAttr el "id") = true ∧
        matchesIdentifierPattern ((getAttr el "id").getD "") = true) →
      jsOrOpt (jsOrOpt (getAttr el "data-testid") (getAttr el "data-qa"))
        (getAttr el "data-cy") = some t → t ≠ "" → dyn = true →
      enhancedCssSelectorForElement el dyn =
        elTag el ++ "[" ++
          (if jsTruthyStr (getAttr el "data-testid") then "data-testid"
           else if jsTruthyStr (getAttr el "data-qa") then "data-qa"
           else "data-cy") ++ "=\"" ++ t ++ "\"]") ∧
    (∀ n, ¬(jsTruthyStr (getAttr el "id") = true ∧
        matchesIdentifierPattern ((getAttr el "id").getD "") = true) →
      ¬(jsTruthyStr (jsOrOpt (jsOrOpt (getAttr el "data-testid")
        (getAttr el "data-qa")) (getAttr el "data-cy")) = true ∧ dyn = true) →
      getAttr el "name" = some n → n ≠ "" →
      (elTag el = "input" ∨ elTag el = "textarea" ∨ elTag el = "select" ∨
        elTag el = "button") →
      enhancedCssSelectorForElement el dyn =
        elTag el ++ "[name=\"" ++ n ++ "\"]") := by
  refine ⟨?_, ?_, ?_⟩
  · intro i hi hm
    have hne : i ≠ "" := matchesIdentifierPattern_ne_empty hm
    have hid : jsTruthyStr (some i) = true := by simp [jsTruthyStr, hne]
    simp [enhancedCssSelectorForElement, hx, hid, hi, hm]
  · intro t h1 ht hne hdyn
    have htr : jsTruthyStr (some t) = true := by simp [jsTruthyStr, hne]
    simp [enhancedCssSelectorForElement, hx, h1, ht, htr, hdyn]
  · intro n h1 h2 hn hne htag
    have hntr : jsTruthyStr (some n) = true := by simp [jsTruthyStr, hne]
    simp [enhancedCssSelectorForElement, hx, h1, h2, hntr, htag, hn]

/-- C4 witness: `{id:"search-box"}` on tag `input` synthesizes
`input#search-box`, and `{name:"q"}` on `input` with no id synthesizes
`input[name="q"]`. -/
theorem c4_witness :
    enhancedCssSelectorForElement
      ⟨some "input", some "html/body/input", [("id", "search-box")],
        none, none, none, none⟩ true = "input#search-box" ∧
    enhancedCssSelectorForElement
      ⟨some "input", some "html/body/input", [("name", "q")],
        none, none, none, none⟩ true = "input[name=\"q\"]" := by
  constructor
  · have h := c4_selector_rules
      ⟨some "input", some "html/body/input", [("id", "search-box")],
        none, none, none, none⟩ true (by decide)
    exact (h.1 "search-box" (by decide) (by decide)).trans (by decide)
  · have h := c4_selector_rules
      ⟨some "input", some "html/body/input", [("name", "q")],
        none, none, none, none⟩ true (by decide)
    exact (h.2.2 "q" (by decide) (by decide) (by decide) (by decide)
      (by decide)).trans (by decide)

/-- C5: in selector-synthesis rule 4, at most 2 class names are appended,
scanning the element's classes in order and rejecting any class with a
run of 3+ digits, longer than 20 characters, or failing the identifier
pattern; for classes `btn btn-1234567` only `.btn` is retained. -/
theorem c5_stable_class_scan (el : DOMElementNode) (dyn : Bool) (ca : String)
    (hx : jsTruthyStr el.xpath = true)
    (h1 : ¬(jsTruthyStr (getAttr el "id") = true ∧
      matchesIdentifierPattern ((getAttr el "id").getD "") = true))
    (h2 : ¬(jsTruthyStr (jsOrOpt (jsOrOpt (getAttr el "data-testid")
      (getAttr el "data-qa")) (getAttr el "data-cy")) = true ∧ dyn = true))
    (h3 : ¬(jsTruthyStr (getAttr el "name") = true ∧
      (elTag el = "input" ∨ elTag el = "textarea" ∨ elTag el = "select" ∨
        elTag el = "button")))
    (hca : getAttr el "class" = some ca) (hne : ca ≠ "") (hdyn : dyn = true) :
    enhancedCssSelectorForElement el dyn =
      (let sel := elTag el ++ classSelectorPart ca ++
        keyAttributesPart el.attributes
       if sel = elTag el then
         convertSimpleXPathToCssSelector ((el.xpath).getD "")
       else sel) ∧
    classSelectorPart ca =
      concatAll ((stableClassesSpec (splitOnWs ca)).map
        fun c => "." ++ c) ∧
    (stableClassesSpec (splitOnWs ca)).length ≤ 2 ∧
    classSelectorPart "btn btn-1234567" = ".btn" := by
  refine ⟨?_, ?_, ?_, by decide⟩
  · have hctr : jsTruthyStr (some ca) = true := by simp [jsTruthyStr, hne]
    have h2' : ¬jsTruthyStr (jsOrOpt (jsOrOpt (getAttr el "data-testid")
        (getAttr el "data-qa")) (getAttr el "data-cy")) = true :=
      fun hh => h2 ⟨hh, hdyn⟩
    simp [enhancedCssSelectorForElement, hx, h1, h2', h3, hctr, hdyn, hca]
  · rw [classSelectorPart, classScanGo_eq_filter_take]
    simp [stableClassesSpec]
  · simp only [stableClassesSpec]
    rw [List.length_take]
    exact Nat.min_le_left _ _

/-- C5 witness: the element with class attribute `btn btn-1234567` (and
no id/test/name attribute) synthesizes `div.btn`: only `.btn` survives
the stable-class scan. -/
theorem c5_witness :
    enhancedCssSelectorForElement
      ⟨some "div", some "html/body/div", [("class", "btn btn-1234567")],
        none, none, none, none⟩ true = "div.btn" ∧
    classSelectorPart "btn btn-1234567" = ".btn" := by
  have h := c5_stable_class_scan
    ⟨some "div", some "html/body/div", [("class", "btn btn-1234567")],
      none, none, none, none⟩ true "btn btn-1234567"
    (by decide) (by decide) (by decide) (by decide) rfl (by decide) rfl
  exact ⟨h.1.trans (by decide), h.2.2.2⟩

/-- C8 counterexample: `scrollDown(0)` — a provided amount — scrolls by
one viewport height (here 800 pixels), not by the 0 pixels the claim
requires, because `if (amount)` treats 0 as falsy; and `scrollUp(-120)`
does not scroll by 120 pixels upward-of-negative (i.e. 120 downward):
the interpolated `--120` is a SyntaxError and the call throws. -/
theorem c8_counterexample :
    scrollDownDelta true (some 0) 800 = .scrolled 800 ∧
    scrollDownDelta true (some 0) 800 ≠ .scrolled 0 ∧
    scrollUpDelta true (some 0) 800 = .scrolled (-800) ∧
    scrollUpDelta true (some (-120)) 800 = .scriptError := by
  refine ⟨rfl, by decide, rfl, rfl⟩

/-- C8 (amended): on an attached page, `scrollDown(amount)` /
`scrollUp(amount)` scroll by exactly the given pixel amount (downward,
respectively upward) for every provided positive amount; when the
amount is omitted — or equal to 0, which JS number truthiness conflates
with omitted — they scroll by one viewport height; a negative amount
scrolls upward via `scrollDown` but makes `scrollUp` throw, since its
interpolated script `window.scrollBy(0, --N)` is a SyntaxError. -/
theorem c8_scroll_amended (a innerHeight : Int) (ha : 0 < a) :
    scrollDownDelta true (some a) innerHeight = .scrolled a ∧
    scrollUpDelta true (some a) innerHeight = .scrolled (-a) ∧
    scrollDownDelta true none innerHeight = .scrolled innerHeight ∧
    scrollUpDelta true none innerHeight = .scrolled (-innerHeight) ∧
    scrollDownDelta true (some 0) innerHeight = .scrolled innerHeight ∧
    scrollUpDelta true (some 0) innerHeight = .scrolled (-innerHeight) ∧
    (∀ b : Int, b < 0 →
      scrollUpDelta true (some b) innerHeight = .scriptError ∧
      scrollDownDelta true (some b) innerHeight = .scrolled b) := by
  have hne : a ≠ 0 := by omega
  have hnlt : ¬a < 0 := by omega
  refine ⟨?_, ?_, ?_, ?_, ?_, ?_, ?_⟩
  · simp [scrollDownDelta, hne]
  · simp [scrollUpDelta, hne, hnlt]
  · simp [scrollDownDelta]
  · simp [scrollUpDelta]
  · simp [scrollDownDelta]
  · simp [scrollUpDelta]
  · intro b hb
    have hbne : b ≠ 0 := by omega
    exact ⟨by simp [scrollUpDelta, hbne, hb],
      by simp [scrollDownDelta, hbne]⟩

/-- C8 witness: scrolling down by 120 pixels with a viewport of 800
pixels moves by exactly 120; omitted and zero amounts move by 800; a
negative amount makes scrollUp fail with a script error while
scrollDown scrolls by it. -/
theorem c8_witness :
    scrollDownDelta true (some 120) 800 = .scrolled 120 ∧
    scrollUpDelta true (some 120) 800 = .scrolled (-120) ∧
    scrollDownDelta true none 800 = .scrolled 800 ∧
    scrollUpDelta true none 800 = .scrolled (-800) ∧
    scrollDownDelta true (some 0) 800 = .scrolled 800 ∧
    scrollUpDelta true (some 0) 800 = .scrolled (-800) ∧
    (scrollUpDelta true (some (-5)) 800 = .scriptError ∧
      scrollDownDelta true (some (-5)) 800 = .scrolled (-5)) := by
  have h := c8_scroll_amended 120 800 (by decide)
  exact ⟨h.1, h.2.1, h.2.2.1, h.2.2.2.1, h.2.2.2.2.1, h.2.2.2.2.2.1,
    h.2.2.2.2.2.2 (-5) (by decide)⟩

/-- Once a value is memoized, every later `hash()` call returns it
unchanged and the computation counter stays fixed, whatever the
underlying computation would now produce. -/
theorem hashCalls_cached (tag : String) (v : HashedDomElement) :
    ∀ (cs : List (Except String HashedDomElement)) (n : Nat),
      hashCalls tag cs ⟨some v, n⟩ =
        (cs.map fun _ => .ok v, ⟨some v, n⟩) := by
  intro cs
  induction cs with
  | nil => intro n; simp [hashCalls]
  | cons c rest ih => intro n; simp [hashCalls, hashCall, ih]

/-- C6: `hash()` is idempotent — after a completed hash computation with
value `v`, every subsequent call (no intervening `clearHashCache`)
returns the identical hashed triple `v`, and the underlying
`HistoryTreeProcessor.hashDomElement` computation has been invoked
exactly once across all such calls (the counter stays at 1). -/
theorem c6_hash_idempotent (tag : String) (v : HashedDomElement)
    (cs : List (Except String HashedDomElement)) :
    hashCall tag (.ok v) ⟨none, 0⟩ = (.ok v, ⟨some v, 1⟩) ∧
    hashCalls tag cs ⟨some v, 1⟩ = (cs.map fun _ => .ok v, ⟨some v, 1⟩) :=
  ⟨rfl, hashCalls_cached tag v cs 1⟩

/-- Calls arriving while a computation is in flight only attach to it:
no new computation starts. -/
theorem hashCallsConcurrent_inflight (k : Nat) :
    ∀ w, hashCallsConcurrent k (.inflight w) = (.inflight (w + k), 0) := by
  induction k with
  | zero => intro w; simp [hashCallsConcurrent]
  | succ n ih =>
      intro w
      have h : w + 1 + n = w + (n + 1) := by omega
      simp [hashCallsConcurrent, hashCallConcurrent, ih, h]

/-- C9: if `k ≥ 1` `hash()` calls arrive concurrently on a node with no
cached value, exactly one underlying computation starts, and resolving
that single shared computation with value `v` delivers `v` to all `k`
callers. -/
theorem c9_single_flight (k : Nat) (hk : 1 ≤ k) (v : HashedDomElement) :
    hashCallsConcurrent k .unset = (.inflight k, 1) ∧
    hashResolve v (.inflight k) = (.done v, k) := by
  obtain ⟨m, rfl⟩ : ∃ m, k = m + 1 := ⟨k - 1, by omega⟩
  refine ⟨?_, rfl⟩
  have h : 1 + m = m + 1 := by omega
  simp [hashCallsConcurrent, hashCallConcurrent,
    hashCallsConcurrent_inflight, h]

/-- C9 witness: three concurrent calls on an unresolved node start
exactly one computation, and its resolution reaches all three. -/
theorem c9_witness :
    hashCallsConcurrent 3 .unset = (.inflight 3, 1) ∧
    hashResolve ⟨"b", "a", "x"⟩ (.inflight 3) =
      (.done ⟨"b", "a", "x"⟩, 3) :=
  c9_single_flight 3 (by decide) ⟨"b", "a", "x"⟩

/-- jsOrStr with empty default is the identity on a present value. -/
theorem jsOrStr_some_empty (y : String) : jsOrStr (some y) "" = y := by
  by_cases hy : y = "" <;> simp [jsOrStr, hy]

/-- C7: the network-idle monitor never adds a request whose lowercased
URL contains `doubleclick` (nor data:/blob: URLs, non-relevant resource
types, or prefetch/video/audio fetch-purpose requests) to the pending
set; and a response whose content-type contains a streaming fragment
such as `video` (e.g. `video/mp4`) removes its request from the pending
set without updating the last-activity timestamp. -/
theorem c7_network_monitor (req : NetRequest) (resp : NetResponse)
    (now : Nat) (st : MonitorState) :
    (strHasSub (toLowerChars req.url) "doubleclick" = true →
      onRequest req now st = st) ∧
    ((toLowerChars req.url).startsWith "data:" = true ∨
      (toLowerChars req.url).startsWith "blob:" = true →
      onRequest req now st = st) ∧
    (RELEVANT_RESOURCE_TYPES.contains req.resourceType = false →
      onRequest req now st = st) ∧
    (req.headerPurpose = some "prefetch" ∨
      req.headerSecFetchDest = some "video" ∨
      req.headerSecFetchDest = some "audio" →
      onRequest req now st = st) ∧
    (∀ ct, resp.contentType = some ct →
      STREAMING_CONTENT_TYPES.any (fun t => strHasSub (toLowerChars ct) t) = true →
      st.pending.contains resp.requestId = true →
      onResponse resp now st =
        ⟨setDelete st.pending resp.requestId, st.lastActivity⟩) := by
  refine ⟨?_, ?_, ?_, ?_, ?_⟩
  · intro h
    unfold onRequest
    split_ifs with h1 h2 h3 h4 h5 <;> try rfl
    exact absurd (List.any_eq_true.mpr ⟨"doubleclick", by decide, h⟩) h3
  · intro h
    unfold onRequest
    split_ifs with h1 h2 h3 h4 h5 <;> try rfl
    exact absurd (show ((toLowerChars req.url).startsWith "data:" ||
      (toLowerChars req.url).startsWith "blob:") = true by
        rcases h with h | h <;> simp [h]) h4
  · intro h
    unfold onRequest
    split_ifs with h1 h2 h3 h4 h5 <;> try rfl
    rw [h] at h1
    simp at h1
  · intro h
    unfold onRequest
    split_ifs with h1 h2 h3 h4 h5 <;> try rfl
    exact absurd (show (decide (req.headerPurpose = some "prefetch") ||
        decide (req.headerSecFetchDest = some "video") ||
        decide (req.headerSecFetchDest = some "audio")) = true by
      rcases h with h | h | h <;> simp [h]) h5
  · intro ct hct hstream hmem
    have hja : jsOrStr (some (toLowerChars ct)) "" = toLowerChars ct :=
      jsOrStr_some_empty _
    unfold onResponse
    rw [hct, hmem]
    show (if (!true) = true then _ else _) = _
    rw [if_neg (by simp)]
    show (if (STREAMING_CONTENT_TYPES.any fun t =>
      strHasSub (jsOrStr ((some ct).map toLowerChars) "") t) = true
        then _ else _) = _
    rw [if_pos (by simpa [hja] using hstream)]

/-- C7 witness: an image request to `https://ads.doubleclick.net/x` is
not added to a pending set holding request 2; a `video/mp4` response for
pending request 7 is removed without touching the last-activity stamp. -/
theorem c7_witness :
    onRequest ⟨1, "image", "https://ads.doubleclick.net/x", none, none⟩ 99
      ⟨[2], 10⟩ = ⟨[2], 10⟩ ∧
    onResponse ⟨7, some "video/mp4", none⟩ 99 ⟨[7], 3⟩ = ⟨[], 3⟩ := by
  have h := c7_network_monitor
    ⟨1, "image", "https://ads.doubleclick.net/x", none, none⟩
    ⟨7, some "video/mp4", none⟩ 99 ⟨[7], 3⟩
  have h' := c7_network_monitor
    ⟨1, "image", "https://ads.doubleclick.net/x", none, none⟩
    ⟨7, some "video/mp4", none⟩ 99 ⟨[2], 10⟩
  exact ⟨h'.1 (by decide),
    (h.2.2.2.2 "video/mp4" rfl (by decide) (by decide)).trans (by decide)⟩

/-- C2: `locateElement` fails closed (null, no strategies tried) when
any iframe ancestor's selector does not resolve or its content frame
cannot be entered; otherwise the strategies run in exactly the order
synthesized CSS selector, raw XPath, exact id selector, `tag[name=...]`,
`tag[aria-label=...]`, returning the first that yields a handle
surviving the scroll-stabilization wait; exhausting all strategies
returns null rather than raising. -/
theorem c2_locate_strategy_order (env : LocateEnv) (el : DOMElementNode) :
    (resolveFrames env.iframeSteps = false →
      locateElement env el = ⟨none, []⟩) ∧
    (∀ h, resolveFrames env.iframeSteps = true →
      env.cssQuery = some h → env.cssScrollOk = true →
      locateElement env el = ⟨some h, [.css]⟩) ∧
    (∀ h, resolveFrames env.iframeSteps = true →
      tryStrategy env.cssQuery env.cssScrollOk = none →
      jsTruthyStr el.xpath = true →
      env.xpathQuery = some h → env.xpathScrollOk = true →
      locateElement env el = ⟨some h, [.css, .xpath]⟩) ∧
    (∀ h, resolveFrames env.iframeSteps = true →
      tryStrategy env.cssQuery env.cssScrollOk = none →
      (jsTruthyStr el.xpath = true →
        tryStrategy env.xpathQuery env.xpathScrollOk = none) →
      jsTruthyStr (getAttr el "id") = true →
      env.idQuery = some h → env.idScrollOk = true →
      locateElement env el =
        ⟨some h, [LocStrat.css] ++
          (if jsTruthyStr el.xpath = true then [LocStrat.xpath] else []) ++
          [LocStrat.idSel]⟩) ∧
    (∀ h, resolveFrames env.iframeSteps = true →
      tryStrategy env.cssQuery env.cssScrollOk = none →
      (jsTruthyStr el.xpath = true →
        tryStrategy env.xpathQuery env.xpathScrollOk = none) →
      (jsTruthyStr (getAttr el "id") = true →
        tryStrategy env.idQuery env.idScrollOk = none) →
      jsTruthyStr (getAttr el "name") = true → jsTruthyStr el.tagName = true →
      env.nameQuery = some h → env.nameScrollOk = true →
      locateElement env el =
        ⟨some h, [LocStrat.css] ++
          (if jsTruthyStr el.xpath = true then [LocStrat.xpath] else []) ++
          (if jsTruthyStr (getAttr el "id") = true then [LocStrat.idSel]
           else []) ++ [LocStrat.nameSel]⟩) ∧
    (∀ h, resolveFrames env.iframeSteps = true →
      tryStrategy env.cssQuery env.cssScrollOk = none →
      (jsTruthyStr el.xpath = true →
        tryStrategy env.xpathQuery env.xpathScrollOk = none) →
      (jsTruthyStr (getAttr el "id") = true →
        tryStrategy env.idQuery env.idScrollOk = none) →
      (jsTruthyStr (getAttr el "name") = true → jsTruthyStr el.tagName = true →
        tryStrategy env.nameQuery env.nameScrollOk = none) →
      jsTruthyStr (getAttr el "aria-label") = true →
      jsTruthyStr el.tagName = true →
      env.ariaQuery = some h → env.ariaScrollOk = true →
      locateElement env el =
        ⟨some h, [LocStrat.css] ++
          (if jsTruthyStr el.xpath = true then [LocStrat.xpath] else []) ++
          (if jsTruthyStr (getAttr el "id") = true then [LocStrat.idSel]
           else []) ++
          (if jsTruthyStr (getAttr el "name") = true ∧
              jsTruthyStr el.tagName = true then [LocStrat.nameSel]
           else []) ++ [LocStrat.ariaSel]⟩) ∧
    (resolveFrames env.iframeSteps = true →
      tryStrategy env.cssQuery env.cssScrollOk = none →
      tryStrategy env.xpathQuery env.xpathScrollOk = none →
      tryStrategy env.idQuery env.idScrollOk = none →
      tryStrategy env.nameQuery env.nameScrollOk = none →
      tryStrategy env.ariaQuery env.ariaScrollOk = none →
      (locateElement env el).handle = none) := by
  refine ⟨?_, ?_, ?_, ?_, ?_, ?_, ?_⟩
  · intro hf
    simp [locateElement, hf]
  · intro h hf hq hs
    have hqq : tryStrategy env.cssQuery env.cssScrollOk = some h := by
      simp [tryStrategy, hq, hs]
    simp [locateElement, hf, hqq]
  · intro h hf hcss hx hq hs
    have hqq : tryStrategy env.xpathQuery env.xpathScrollOk = some h := by
      simp [tryStrategy, hq, hs]
    simp [locateElement, locateFromStrategy2, hf, hcss, hx, hqq]
  · intro h hf hcss hxp hid hq hs
    have hqq : tryStrategy env.idQuery env.idScrollOk = some h := by
      simp [tryStrategy, hq, hs]
    by_cases hx : jsTruthyStr el.xpath = true
    · simp [locateElement, locateFromStrategy2, hf, hcss, hx, hxp hx, hid,
        hqq]
    · rw [Bool.not_eq_true] at hx
      simp [locateElement, locateFromStrategy2, hf, hcss, hx, hid, hqq]
  · intro h hf hcss hxp hidp hn ht hq hs
    have hqq : tryStrategy env.nameQuery env.nameScrollOk = some h := by
      simp [tryStrategy, hq, hs]
    by_cases hx : jsTruthyStr el.xpath = true <;>
      by_cases hid : jsTruthyStr (getAttr el "id") = true
    · simp [locateElement, locateFromStrategy2, hf, hcss, hx, hid, hxp hx,
        hidp hid, hn, ht, hqq]
    · rw [Bool.not_eq_true] at hid
      simp [locateElement, locateFromStrategy2, hf, hcss, hx, hid, hxp hx,
        hn, ht, hqq]
    · rw [Bool.not_eq_true] at hx
      simp [locateElement, locateFromStrategy2, hf, hcss, hx, hid,
        hidp hid, hn, ht, hqq]
    · rw [Bool.not_eq_true] at hx hid
      simp [locateElement, locateFromStrategy2, hf, hcss, hx, hid, hn, ht,
        hqq]
  · intro h hf hcss hxp hidp hnp ha ht hq hs
    have hqq : tryStrategy env.ariaQuery env.ariaScrollOk = some h := by
      simp [tryStrategy, hq, hs]
    by_cases hx : jsTruthyStr el.xpath = true <;>
      by_cases hid : jsTruthyStr (getAttr el "id") = true <;>
      by_cases hn : jsTruthyStr (getAttr el "name") = true
    all_goals try have hx1 := hxp hx
    all_goals try have hid1 := hidp hid
    all_goals try have hn1 := hnp hn ht
    all_goals try rw [Bool.not_eq_true] at hx
    all_goals try rw [Bool.not_eq_true] at hid
    all_goals try rw [Bool.not_eq_true] at hn
    all_goals clear hq hs
    all_goals simp [locateElement, locateFromStrategy2, hf, hcss, ha, ht, *]
  · intro hf hcss hxpn hidn hnn han
    simp only [locateElement, locateFromStrategy2, hf, hcss, hxpn, hidn,
      hnn, han, if_true]
    split_ifs <;> simp [hcss, hxpn, hidn, hnn, han]

/-- C2 witness: an iframe ancestor whose selector does not resolve makes
locate fail closed with no strategies tried, even though the CSS query
would have succeeded; with the frame chain intact the CSS strategy
returns first. -/
theorem c2_witness :
    locateElement
      ⟨[⟨false, true⟩], some 4, true, none, true, none, true, none, true,
        none, true⟩
      ⟨some "button", some "html/body/button", [], some 1, none, none,
        none⟩ = ⟨none, []⟩ ∧
    locateElement
      ⟨[⟨true, true⟩], some 4, true, none, true, none, true, none, true,
        none, true⟩
      ⟨some "button", some "html/body/button", [], some 1, none, none,
        none⟩ = ⟨some 4, [.css]⟩ := by
  have h1 := c2_locate_strategy_order
    ⟨[⟨false, true⟩], some 4, true, none, true, none, true, none, true,
      none, true⟩
    ⟨some "button", some "html/body/button", [], some 1, none, none, none⟩
  have h2 := c2_locate_strategy_order
    ⟨[⟨true, true⟩], some 4, true, none, true, none, true, none, true,
      none, true⟩
    ⟨some "button", some "html/body/button", [], some 1, none, none, none⟩
  exact ⟨h1.1 (by decide), h2.2.1 4 (by decide) rfl rfl⟩

/-- C3 counterexample: a node whose live handle cannot be located but
which has cached viewport coordinates is clicked successfully via the
coordinate fallback with attempt trace `[viewportCoord]` — the native
and script paths are skipped entirely (they require a located handle),
not "attempted and failed first" as the claim asserts. -/
theorem c3_counterexample :
    clickElementNode ⟨none, true, true, true, true, true, true⟩
      ⟨some "button", some "html/body/button", [], some 5,
        some ⟨⟨100, 200⟩⟩, none, none⟩ = .success [.viewportCoord] ∧
    ClickAttempt.native ∉
      (clickElementNode ⟨none, true, true, true, true, true, true⟩
        ⟨some "button", some "html/body/button", [], some 5,
          some ⟨⟨100, 200⟩⟩, none, none⟩).attempts ∧
    ClickAttempt.script ∉
      (clickElementNode ⟨none, true, true, true, true, true, true⟩
        ⟨some "button", some "html/body/button", [], some 5,
          some ⟨⟨100, 200⟩⟩, none, none⟩).attempts := by
  refine ⟨rfl, by decide, by decide⟩

/-- C3 (amended): with a located handle the fallbacks run in the order
native click (short timeout), script-driven click, viewport-coordinate
click, page-coordinate click adjusted by the stored scroll offsets,
host-scripting lookup, first success short-circuiting; when the handle
cannot be located the native/script attempts are skipped and the ladder
starts at the coordinate fallback; full exhaustion fails carrying the
element's tag and highlight index; a scroll-stabilization timeout on a
located handle aborts the click with no attempts. -/
theorem c3_click_ladder (env : ClickEnv) (el : DOMElementNode) :
    (∀ hdl, env.located = some hdl → env.scrollOk = true →
      env.nativeClickOk = true →
      clickElementNode env el = .success [.native]) ∧
    (∀ hdl, env.located = some hdl → env.scrollOk = true →
      env.nativeClickOk = false → env.scriptClickOk = true →
      clickElementNode env el = .success [.native, .script]) ∧
    (∀ hdl vc, env.located = some hdl → env.scrollOk = true →
      env.nativeClickOk = false → env.scriptClickOk = false →
      el.viewportCoordinates = some vc → env.viewportClickOk = true →
      clickElementNode env el =
        .success [.native, .script, .viewportCoord]) ∧
    (∀ hdl vc pc, env.located = some hdl → env.scrollOk = true →
      env.nativeClickOk = false → env.scriptClickOk = false →
      el.viewportCoordinates = some vc → env.viewportClickOk = false →
      el.pageCoordinates = some pc → env.pageClickOk = true →
      clickElementNode env el =
        .success [.native, .script, .viewportCoord, .pageCoord] ∧
      pageCoordClickPoint el = some
        (pc.center.x - (match el.viewportInfo with
          | some vi => vi.scrollX
          | none => 0),
         pc.center.y - (match el.viewportInfo with
          | some vi => vi.scrollY
          | none => 0))) ∧
    (∀ hdl vc pc, env.located = some hdl → env.scrollOk = true →
      env.nativeClickOk = false → env.scriptClickOk = false →
      el.viewportCoordinates = some vc → env.viewportClickOk = false →
      el.pageCoordinates = some pc → env.pageClickOk = false →
      env.hostScriptOk = false →
      clickElementNode env el =
        .failure [.native, .script, .viewportCoord, .pageCoord,
          .hostScript] el.tagName el.highlightIndex) ∧
    (∀ vc, env.located = none → el.viewportCoordinates = some vc →
      env.viewportClickOk = true →
      clickElementNode env el = .success [.viewportCoord]) ∧
    (∀ hdl, env.located = some hdl → env.scrollOk = false →
      clickElementNode env el = .failure [] el.tagName el.highlightIndex)
    := by
  refine ⟨?_, ?_, ?_, ?_, ?_, ?_, ?_⟩
  · intro hdl hl hsc hn
    simp [clickElementNode, hl, hsc, hn]
  · intro hdl hl hsc hn hs
    simp [clickElementNode, hl, hsc, hn, hs]
  · intro hdl vc hl hsc hn hs hvc hv
    simp [clickElementNode, clickCoordPhase, hl, hsc, hn, hs, hvc, hv]
  · intro hdl vc pc hl hsc hn hs hvc hv hpc hp
    refine ⟨?_, by simp [pageCoordClickPoint, hpc]⟩
    simp [clickElementNode, clickCoordPhase, hl, hsc, hn, hs, hvc, hv,
      hpc, hp]
  · intro hdl vc pc hl hsc hn hs hvc hv hpc hp hh
    simp [clickElementNode, clickCoordPhase, clickHostPhase, hl, hsc, hn,
      hs, hvc, hv, hpc, hp, hh]
  · intro vc hl hvc hv
    simp [clickElementNode, clickCoordPhase, hl, hvc, hv]
  · intro hdl hl hsc
    simp [clickElementNode, hl, hsc]

/-- C3 witness: with a located handle and all strategies failing, the
full ladder is attempted in order and the failure carries the tag and
highlight index. -/
theorem c3_witness :
    clickElementNode ⟨some 9, true, false, false, false, false, false⟩
      ⟨some "a", some "html/body/a", [], some 7, some ⟨⟨10, 20⟩⟩,
        some ⟨⟨30, 40⟩⟩, some ⟨3, 4⟩⟩ =
      .failure [.native, .script, .viewportCoord, .pageCoord, .hostScript]
        (some "a") (some 7) ∧
    pageCoordClickPoint
      ⟨some "a", some "html/body/a", [], some 7, some ⟨⟨10, 20⟩⟩,
        some ⟨⟨30, 40⟩⟩, some ⟨3, 4⟩⟩ = some (27, 36) := by
  have h := c3_click_ladder ⟨some 9, true, false, false, false, false, false⟩
    ⟨some "a", some "html/body/a", [], some 7, some ⟨⟨10, 20⟩⟩,
      some ⟨⟨30, 40⟩⟩, some ⟨3, 4⟩⟩
  exact ⟨h.2.2.2.2.1 9 ⟨⟨10, 20⟩⟩ ⟨⟨30, 40⟩⟩ rfl rfl rfl rfl rfl rfl rfl
    rfl rfl, by decide⟩

/-! ### Concrete data for the C1 counterexample -/

def sOldC1 : PageState where
  elementTree := ⟨some "root", some "", [], none, none, none, none⟩
  selectorMap := []
  tabId := 1
  url := "https://old.example/"
  title := "Old Title"
  screenshot := some "oldshot"
  pixelsAbove := 10
  pixelsBelow := 20

def treeNewC1 : DOMElementNode :=
  ⟨some "body", some "html/body", [], some 0, none, none, none⟩

/-- Environment in which extraction succeeds but the awaited title fetch
rejects (e.g. the page navigated away between the two protocol calls). -/
def envC1 : UpdateEnv where
  pageAccessible := true
  recoveryPageAvailable := true
  removeHighlightOk := true
  clickableResult := .ok (some ⟨treeNewC1, [(0, treeNewC1)]⟩)
  screenshotResult := .ok "newshot"
  scrollInfoResult := .ok (0, 0)
  urlNow := "https://new.example/"
  titleResult := .error ()

/-- C1 counterexample: when the title fetch throws after extraction
succeeded, `_updateState` returns a state whose elementTree, selectorMap
and url are already overwritten with the new snapshot while title,
screenshot and pixel counts keep the previous values — not the
previously stored `PageState` with every field unchanged. -/
theorem c1_counterexample :
    updateState envC1 true sOldC1 =
      .ok { sOldC1 with
              elementTree := treeNewC1
              selectorMap := [(0, treeNewC1)]
              url := "https://new.example/" } ∧
    ({ sOldC1 with
         elementTree := treeNewC1
         selectorMap := [(0, treeNewC1)]
         url := "https://new.example/" } : PageState) ≠ sOldC1 ∧
    ({ sOldC1 with
         elementTree := treeNewC1
         selectorMap := [(0, treeNewC1)]
         url := "https://new.example/" } : PageState).title = sOldC1.title :=
  ⟨rfl, by decide, rfl⟩

/-- C1 (amended): when extraction returns a null/empty result, or the
refresh throws before the field-update sequence begins (highlight
removal, extraction, screenshot, scroll-info), `_updateState` returns
the previously stored `PageState` with every field unchanged; a throw
during the title fetch, after extraction succeeded, returns the state
with elementTree, selectorMap and url already overwritten and the
remaining fields unchanged.  The state is never cleared. -/
theorem c1_update_state_on_failure (env : UpdateEnv) (useVision : Bool)
    (s : PageState) (hacc : env.pageAccessible = true) :
    (env.removeHighlightOk = false → updateState env useVision s = .ok s) ∧
    (env.clickableResult = .error () →
      updateState env useVision s = .ok s) ∧
    (env.clickableResult = .ok none →
      updateState env useVision s = .ok s) ∧
    (∀ c, env.removeHighlightOk = true →
      env.clickableResult = .ok (some c) → useVision = true →
      env.screenshotResult = .error () →
      updateState env useVision s = .ok s) ∧
    (∀ c sc, env.removeHighlightOk = true →
      env.clickableResult = .ok (some c) →
      (if useVision then env.screenshotResult.map some
       else .ok none) = .ok sc →
      env.scrollInfoResult = .error () →
      updateState env useVision s = .ok s) ∧
    (∀ c sc pix, env.removeHighlightOk = true →
      env.clickableResult = .ok (some c) →
      (if useVision then env.screenshotResult.map some
       else .ok none) = .ok sc →
      env.scrollInfoResult = .ok pix → env.titleResult = .error () →
      updateState env useVision s =
        .ok { s with
                elementTree := c.elementTree
                selectorMap := c.selectorMap
                url := env.urlNow }) := by
  refine ⟨?_, ?_, ?_, ?_, ?_, ?_⟩
  · intro hr
    simp [updateState, hacc, hr]
  · intro hc
    by_cases hr : env.removeHighlightOk = true <;>
      simp_all [updateState, hacc]
  · intro hc
    by_cases hr : env.removeHighlightOk = true <;>
      simp_all [updateState, hacc]
  · intro c hr hc hv hsc
    simp [updateState, hacc, hr, hc, hv, hsc, Except.map]
  · intro c sc hr hc hsc hsi
    simp only [updateState, hacc, hr, hc, hsc, hsi]
    simp
  · intro c sc pix hr hc hsc hsi ht
    simp only [updateState, hacc, hr, hc, hsc, hsi, ht]
    simp

/-- C1 witness: a refresh whose extraction collaborator returns null
leaves the stored state untouched and returns it. -/
theorem c1_witness :
    updateState
      { pageAccessible := true, recoveryPageAvailable := true,
        removeHighlightOk := true, clickableResult := .ok none,
        screenshotResult := .ok "x", scrollInfoResult := .ok (1, 2),
        urlNow := "https://x.example/", titleResult := .ok "t" }
      true sOldC1 = .ok sOldC1 :=
  (c1_update_state_on_failure _ true sOldC1 rfl).2.2.1 rfl

end PagePilot
